import Mathlib

/-!
Shallow embedding of `gqcnn/analyzer.py` (class `GQCNNAnalyzer`): the
configuration parser, the model-name derivation loop of `analyze`, the
grasp plotting helper `_plot_grasp`, the prediction/aggregation pipeline
`_run_prediction_single_model`, and the curve/histogram plotting `_plot`.

Strings that the Python code manipulates character-by-character (paths) are
modelled as `List Char`; metric values, probabilities and pose entries are
modelled as rationals; side effects (directory creation, figure/file saving)
are modelled as explicit effect traces.
-/

namespace GQCNNAnalysis

/-! ### Path utilities (posixpath semantics used by `analyze`) -/

/-- The POSIX path separator. -/
def sep : Char := '/'

/-- Embedding of `os.path.split(p)` (posixpath): `tail` is the part after the
last separator, `head` is everything before it, with trailing separators
stripped from `head` unless `head` consists entirely of separators. -/
def ospathSplit (p : List Char) : List Char × List Char :=
  let tail := (p.reverse.takeWhile (fun c => c != sep)).reverse
  let head0 := (p.reverse.dropWhile (fun c => c != sep)).reverse
  let head := if head0 ≠ [] ∧ ¬ (head0.all (fun c => c == sep) = true) then
      (head0.reverse.dropWhile (fun c => c == sep)).reverse
    else head0
  (head, tail)

/-- One iteration of the model-name loop in `analyze`:
`model_root, model_name = os.path.split(model_root)`. -/
def modelNameStep (s : List Char × List Char) : List Char × List Char :=
  ospathSplit s.1

/-- The guard of the model-name loop: `model_name == '' and model_root != ''`. -/
def modelNameGuard (s : List Char × List Char) : Prop :=
  s.2 = [] ∧ s.1 ≠ []

instance (s : List Char × List Char) : Decidable (modelNameGuard s) := by
  unfold modelNameGuard; infer_instance

/-- Fuel-bounded embedding of the `while` loop in `analyze` that derives
`model_name` from `model_dir`; `none` means the loop has not finished within
`fuel` iterations. -/
def modelNameLoop : Nat → List Char × List Char → Option (List Char)
  | fuel, s =>
    if modelNameGuard s then
      match fuel with
      | 0 => none
      | fuel + 1 => modelNameLoop fuel (modelNameStep s)
    else some s.2

/-- The model-name derivation of `analyze`, starting from
`model_name = ''`, `model_root = model_dir`. -/
def deriveModelName (fuel : Nat) (model_dir : List Char) : Option (List Char) :=
  modelNameLoop fuel (model_dir, [])

/-- The last non-empty path component of `p`: drop trailing separators, then
take the maximal separator-free suffix. -/
def lastNonemptyComponent (p : List Char) : List Char :=
  ((p.reverse.dropWhile (fun c => c == sep)).takeWhile (fun c => c != sep)).reverse

/-- Embedding of `os.path.join(a, b)` (posixpath, two components). -/
def pathJoin (a b : List Char) : List Char :=
  if b.head? = some sep then b
  else if a = [] ∨ a.getLast? = some sep then a ++ b
  else a ++ sep :: b

/-- Embedding of the `if not os.path.exists(d): os.mkdir(d)` pattern; the
filesystem is modelled as the list of existing directories. -/
def ensureDir (fs : List (List Char)) (d : List Char) : List (List Char) :=
  if d ∈ fs then fs else fs ++ [d]

/-! ### Configuration parsing (`__init__` / `_parse_config`) -/

/-- A Python `dict` lookup `cfg[k]`: `none` models the `KeyError`. -/
def lookupKey (cfg : List (String × Nat)) (k : String) : Option Nat :=
  (cfg.find? (fun kv => kv.1 == k)).map (fun kv => kv.2)

/-- The five analyzer parameters read by `_parse_config`. -/
structure ParsedConfig where
  log_rate : Nat
  font_size : Nat
  dpi : Nat
  num_bins : Nat
  num_vis : Nat
deriving DecidableEq

/-- Embedding of `GQCNNAnalyzer._parse_config`: each `self.cfg[key]` access
fails when the key is missing, in the order the source reads them. -/
def parseConfig (cfg : List (String × Nat)) : Option ParsedConfig := do
  let log_rate ← lookupKey cfg "log_rate"
  let font_size ← lookupKey cfg "font_size"
  let dpi ← lookupKey cfg "dpi"
  let num_bins ← lookupKey cfg "num_bins"
  let num_vis ← lookupKey cfg "num_vis"
  pure ⟨log_rate, font_size, dpi, num_bins, num_vis⟩

/-- Embedding of `GQCNNAnalyzer.__init__`: it stores the config and calls
`_parse_config` immediately, before any call to `analyze`. -/
def GQCNNAnalyzer.make (cfg : List (String × Nat)) : Option ParsedConfig :=
  parseConfig cfg

/-- The configuration keys `_parse_config` reads, in source order. -/
def requiredKeys : List String :=
  ["log_rate", "font_size", "dpi", "num_bins", "num_vis"]

/-! ### Gripper modes, images and `_plot_grasp` -/

/-- Modelled from the spec: the pose-encoding ("gripper mode") constants of
`GripperMode` in `optimizer_constants.py`, which is not under `src/`;
modelled as distinct strings naming the encodings. -/
def GripperMode.PARALLEL_JAW : String := "parallel_jaw"

/-- Modelled from the spec: the legacy parallel-jaw pose-encoding constant. -/
def GripperMode.LEGACY_PARALLEL_JAW : String := "legacy_parallel_jaw"

/-- Modelled from the spec: the suction pose-encoding constant. -/
def GripperMode.SUCTION : String := "suction"

/-- An image tensor of shape height x width x channels. -/
def Image : Type := List (List (List ℚ))

/-- The slice `datapoint[image_field_name][:,:,0]` fed to `DepthImage`. -/
def channel0 (img : Image) : List (List ℚ) :=
  img.map (fun row => row.map (fun px => px.headD 0))

/-- Modelled from the spec: `DepthImage.center` from the external
`perception` package ("centered grasp"), the center coordinates of the
image. -/
def imageCenter (img : List (List ℚ)) : ℚ × ℚ :=
  ((img.length : ℚ) / 2, ((img.headD []).length : ℚ) / 2)

/-- The geometric grasp depiction passed to the visualizer: either a
`Grasp2D` or a `SuctionPoint2D`. -/
inductive GraspDepiction where
  | grasp2D (center : ℚ × ℚ) (angle depth width : ℚ)
  | suctionPoint2D (center : ℚ × ℚ) (ax : List ℚ) (depth : ℚ)
deriving DecidableEq

/-- Pure records of the `vis2d` calls the analyzer makes. -/
inductive PlotCmd where
  | clf
  | figure
  | imshow (img : List (List ℚ))
  | graspOverlay (g : GraspDepiction) (width : ℚ)
  | title (idx : Nat) (pred : ℚ) (label : Nat)
  | prCurve (pred_probs : List ℚ) (labels : List Nat) (label : String)
  | rocCurve (pred_probs : List ℚ) (labels : List Nat) (label : String)
  | histogram (values : List ℚ) (num_bins : Nat)
  | xlabel (s : String)
  | ylabel (s : String)
  | savefig (path : String)
deriving DecidableEq

/-- Embedding of `GQCNNAnalyzer._plot_grasp`. -/
def plotGrasp (datapointImage : Image) (datapointPose : List ℚ)
    (gripper_mode : String) : List PlotCmd :=
  let image := channel0 datapointImage
  let depth := datapointPose.getD 2 0
  if gripper_mode == GripperMode.PARALLEL_JAW
      || gripper_mode == GripperMode.LEGACY_PARALLEL_JAW then
    let grasp := GraspDepiction.grasp2D (imageCenter image) 0 depth 0
    let width := datapointPose.getLast?.getD 0
    [PlotCmd.imshow image, PlotCmd.graspOverlay grasp width]
  else
    let grasp := GraspDepiction.suctionPoint2D (imageCenter image) [1, 0, 0] depth
    [PlotCmd.imshow image, PlotCmd.graspOverlay grasp 0]

/-! ### Classification results (external `autolab_core` collaborator) -/

/-- Modelled from the spec: `autolab_core.BinaryClassificationResult`, an
immutable aggregate of predicted probabilities and ground-truth labels. -/
structure BinaryClassificationResult where
  pred_probs : List ℚ
  labels : List Nat
deriving DecidableEq

namespace BinaryClassificationResult

/-- Modelled from the spec: the predicted label is the prediction rounded at
the fixed 0.5 decision boundary. -/
def predLabel (p : ℚ) : Nat := if (1 : ℚ) / 2 ≤ p then 1 else 0

def num_datapoints (r : BinaryClassificationResult) : Nat := r.pred_probs.length

/-- Modelled from the spec: the index set of datapoints whose rounded
prediction is `plabel` and whose true label is `alabel`. -/
def outcomeIndices (r : BinaryClassificationResult) (plabel alabel : Nat) : List Nat :=
  (List.range r.num_datapoints).filter
    (fun j => predLabel (r.pred_probs.getD j 0) == plabel && r.labels.getD j 0 == alabel)

def true_positive_indices (r : BinaryClassificationResult) : List Nat := r.outcomeIndices 1 1

def false_positive_indices (r : BinaryClassificationResult) : List Nat := r.outcomeIndices 1 0

def true_negative_indices (r : BinaryClassificationResult) : List Nat := r.outcomeIndices 0 0

def false_negative_indices (r : BinaryClassificationResult) : List Nat := r.outcomeIndices 0 1

end BinaryClassificationResult

/-! ### Dataset and model handles -/

/-- The `TensorDataset`: per-tensor field arrays addressed by field name and
tensor index, a split resolver, and per-datapoint field access. -/
structure Dataset where
  num_tensors : Nat
  imageField : String → Nat → List Image
  poseField : String → Nat → List (List ℚ)
  metricField : String → Nat → List ℚ
  splitOf : String → List Nat × List Nat
  datapointImage : String → Nat → Image
  datapointPose : String → Nat → List ℚ

/-- The loaded GQCNN model: its stored gripper mode, conv1 filter slices,
and its inference function returning per-datapoint probability pairs. -/
structure GQCNNModel where
  gripper_mode : String
  filters : List (List (List ℚ))
  predict : List Image → List (List ℚ) → List (ℚ × ℚ)

/-! ### Parameter resolution in `_run_prediction_single_model` -/

/-- The dataset-related keys of the model's `config.json`. -/
structure ModelConfigJson where
  dataset_dir : String
  split_name : String
  image_field_name : String
  pose_field_name : String
  target_metric_name : String
  metric_thresh : ℚ
deriving DecidableEq

/-- The caller-supplied `dataset_config` dict: the same keys plus
`gripper_mode`. -/
structure DatasetConfig where
  dataset_dir : String
  split_name : String
  image_field_name : String
  pose_field_name : String
  target_metric_name : String
  metric_thresh : ℚ
  gripper_mode : String
deriving DecidableEq

/-- The parameters actually used by the rest of the analysis. -/
structure ResolvedParams where
  dataset_dir : String
  split_name : String
  image_field_name : String
  pose_field_name : String
  metric_name : String
  metric_thresh : ℚ
  gripper_mode : String
deriving DecidableEq

/-- Embedding of the `if dataset_config is None: ... else: ...` block of
`_run_prediction_single_model` (the model's gripper mode was read from the
loaded model just before it). -/
def resolveParams (model_config : ModelConfigJson) (model_gripper_mode : String)
    (dataset_config : Option DatasetConfig) : ResolvedParams :=
  match dataset_config with
  | none =>
      ⟨model_config.dataset_dir, model_config.split_name, model_config.image_field_name,
        model_config.pose_field_name, model_config.target_metric_name,
        model_config.metric_thresh, model_gripper_mode⟩
  | some d =>
      ⟨d.dataset_dir, d.split_name, d.image_field_name, d.pose_field_name,
        d.target_metric_name, d.metric_thresh, d.gripper_mode⟩

/-! ### Label binarization and aggregation -/

/-- Embedding of `label_arr = 1 * (metric_arr > metric_thresh)`. -/
def binarizeMetrics (metric_arr : List ℚ) (metric_thresh : ℚ) : List Nat :=
  metric_arr.map (fun m => if metric_thresh < m then 1 else 0)

/-- The flat label sequence aggregated over all tensors, in tensor order. -/
def aggregateLabels (dataset : Dataset) (metric_name : String) (metric_thresh : ℚ) :
    List Nat :=
  ((List.range dataset.num_tensors).map
    (fun i => binarizeMetrics (dataset.metricField metric_name i) metric_thresh)).flatten

/-- The flat metric sequence over all tensors, in tensor order. -/
def aggregateMetrics (dataset : Dataset) (metric_name : String) : List ℚ :=
  ((List.range dataset.num_tensors).map (fun i => dataset.metricField metric_name i)).flatten

/-- The flat positive-class probability sequence (`predictions[:,1]`)
aggregated over all tensors. -/
def aggregatePredictions (gq : GQCNNModel)
    (read_pose_data : List (List ℚ) → String → List (List ℚ))
    (dataset : Dataset) (p : ResolvedParams) : List ℚ :=
  ((List.range dataset.num_tensors).map
    (fun i => (gq.predict (dataset.imageField p.image_field_name i)
        (read_pose_data (dataset.poseField p.pose_field_name i) p.gripper_mode)).map
      (fun pr => pr.2))).flatten

/-- Numpy fancy indexing `xs[indices]`. -/
def fancyIndex {α : Type} (xs : List α) (d : α) (indices : List Nat) : List α :=
  indices.map (fun k => xs.getD k d)

/-! ### Example rendering -/

/-- Python `'%03d' % n`: the decimal representation zero-padded to width 3. -/
def pad3 (n : Nat) : String :=
  String.mk (List.replicate (3 - (Nat.repr n).length) '0') ++ Nat.repr n

/-- The commands rendering the `i`-th surviving example (category-relative
index `j`) in the seven category blocks that call `_plot_grasp`. -/
def exampleCmds (dataset : Dataset) (p : ResolvedParams)
    (result : BinaryClassificationResult) (splitIndices : List Nat)
    (exampleDir category : String) (i j : Nat) : List PlotCmd :=
  let k := splitIndices.getD j 0
  PlotCmd.clf ::
    plotGrasp (dataset.datapointImage p.image_field_name k)
      (dataset.datapointPose p.pose_field_name k) p.gripper_mode ++
    [PlotCmd.title k (result.pred_probs.getD j 0) (result.labels.getD j 0),
      PlotCmd.savefig (exampleDir ++ "/" ++ category ++ "_" ++ pad3 i ++ ".png")]

/-- One of the seven category blocks using `_plot_grasp`: shuffle the
category index set, truncate to `num_vis`, render each survivor. -/
def renderCategory (shuffle : List Nat → List Nat) (num_vis : Nat) (dataset : Dataset)
    (p : ResolvedParams) (result : BinaryClassificationResult)
    (splitIndices catIndices : List Nat) (exampleDir category : String) : List PlotCmd :=
  let idxs := (shuffle catIndices).take num_vis
  (idxs.enum.map
    (fun ij => exampleCmds dataset p result splitIndices exampleDir category ij.1 ij.2)).flatten

/-- The commands rendering one validation false-positive example: this block
shows the raw depth image and does not call `_plot_grasp`. -/
def exampleCmdsValFP (dataset : Dataset) (p : ResolvedParams)
    (result : BinaryClassificationResult) (splitIndices : List Nat)
    (exampleDir : String) (i j : Nat) : List PlotCmd :=
  let k := splitIndices.getD j 0
  [PlotCmd.clf,
    PlotCmd.imshow (channel0 (dataset.datapointImage p.image_field_name k)),
    PlotCmd.title k (result.pred_probs.getD j 0) (result.labels.getD j 0),
    PlotCmd.savefig (exampleDir ++ "/false_positive_" ++ pad3 i ++ ".png")]

/-- The validation false-positive block. -/
def renderValFP (shuffle : List Nat → List Nat) (num_vis : Nat) (dataset : Dataset)
    (p : ResolvedParams) (result : BinaryClassificationResult)
    (splitIndices catIndices : List Nat) (exampleDir : String) : List PlotCmd :=
  let idxs := (shuffle catIndices).take num_vis
  (idxs.enum.map
    (fun ij => exampleCmdsValFP dataset p result splitIndices exampleDir ij.1 ij.2)).flatten

/-- The file paths saved by a command list. -/
def savefigPaths (cmds : List PlotCmd) : List String :=
  cmds.filterMap (fun c => match c with | PlotCmd.savefig s => some s | _ => none)

/-- The number of grasp overlays drawn by a command list. -/
def graspOverlayCount (cmds : List PlotCmd) : Nat :=
  cmds.countP (fun c => match c with | PlotCmd.graspOverlay _ _ => true | _ => false)

/-! ### The full prediction pipeline and its effects -/

/-- Side effects of `_run_prediction_single_model`. -/
inductive Effect where
  | mkdirIfAbsent (path : String)
  | saveResult (path : String) (r : BinaryClassificationResult)
  | plot (c : PlotCmd)
  | saveStats (path : String) (r : BinaryClassificationResult)
deriving DecidableEq

/-- The `(path, result)` pairs persisted by `result.save(...)` calls. -/
def saveResultEvents (effs : List Effect) : List (String × BinaryClassificationResult) :=
  effs.filterMap (fun e => match e with | Effect.saveResult p r => some (p, r) | _ => none)

/-- Embedding of `_run_prediction_single_model`: returns the two
classification results together with the trace of side effects. The
non-deterministic `np.random.shuffle` is a parameter. -/
def runPredictionSingleModel (cfg : ParsedConfig) (model_config : ModelConfigJson)
    (gq : GQCNNModel) (read_pose_data : List (List ℚ) → String → List (List ℚ))
    (datasets : String → Dataset) (shuffle : List Nat → List Nat)
    (model_output_dir : String) (dataset_config : Option DatasetConfig) :
    BinaryClassificationResult × BinaryClassificationResult × List Effect :=
  let gripper_mode := gq.gripper_mode
  let p := resolveParams model_config gripper_mode dataset_config
  let dataset := datasets p.dataset_dir
  let split := dataset.splitOf p.split_name
  let train_indices := split.1
  let val_indices := split.2
  let all_predictions := aggregatePredictions gq read_pose_data dataset p
  let all_labels := aggregateLabels dataset p.metric_name p.metric_thresh
  let train_result : BinaryClassificationResult :=
    ⟨fancyIndex all_predictions 0 train_indices, fancyIndex all_labels 0 train_indices⟩
  let val_result : BinaryClassificationResult :=
    ⟨fancyIndex all_predictions 0 val_indices, fancyIndex all_labels 0 val_indices⟩
  let example_dir := model_output_dir ++ "/examples"
  let train_example_dir := example_dir ++ "/train"
  let val_example_dir := example_dir ++ "/val"
  let nv := cfg.num_vis
  let trainCmds :=
    renderCategory shuffle nv dataset p train_result train_indices
      train_result.true_positive_indices train_example_dir "true_positive" ++
    renderCategory shuffle nv dataset p train_result train_indices
      train_result.false_positive_indices train_example_dir "false_positive" ++
    renderCategory shuffle nv dataset p train_result train_indices
      train_result.true_negative_indices train_example_dir "true_negative" ++
    renderCategory shuffle nv dataset p train_result train_indices
      train_result.false_negative_indices train_example_dir "false_negative"
  let valCmds :=
    renderCategory shuffle nv dataset p val_result val_indices
      val_result.true_positive_indices val_example_dir "true_positive" ++
    renderValFP shuffle nv dataset p val_result val_indices
      val_result.false_positive_indices val_example_dir ++
    renderCategory shuffle nv dataset p val_result val_indices
      val_result.true_negative_indices val_example_dir "true_negative" ++
    renderCategory shuffle nv dataset p val_result val_indices
      val_result.false_negative_indices val_example_dir "false_negative"
  (train_result, val_result,
    [Effect.plot (PlotCmd.savefig (model_output_dir ++ "/conv1_filters.pdf")),
      Effect.saveResult (model_output_dir ++ "/train_result.cres") train_result,
      Effect.saveResult (model_output_dir ++ "/val_result.cres") val_result,
      Effect.plot PlotCmd.figure,
      Effect.mkdirIfAbsent example_dir,
      Effect.mkdirIfAbsent train_example_dir] ++
    trainCmds.map Effect.plot ++
    [Effect.mkdirIfAbsent val_example_dir] ++
    valCmds.map Effect.plot ++
    [Effect.saveStats (model_output_dir ++ "/train_stats.json") train_result,
      Effect.saveStats (model_output_dir ++ "/val_stats.json") val_result])

/-! ### Curve plotting (`_plot`) -/

/-- The absolute prediction errors on the datapoints with true label `lab`:
`np.abs(labels[ind] - pred_probs[ind])` where `ind = np.where(labels == lab)`. -/
def errorDiffs (r : BinaryClassificationResult) (lab : Nat) : List ℚ :=
  ((List.range r.num_datapoints).filter (fun j => r.labels.getD j 0 == lab)).map
    (fun j => |(r.labels.getD j 0 : ℚ) - r.pred_probs.getD j 0|)

/-- Embedding of `GQCNNAnalyzer._plot`. -/
def plotCurves (cfg : ParsedConfig) (model_output_dir : String)
    (train_result val_result : BinaryClassificationResult) : List PlotCmd :=
  let model_name := String.mk (ospathSplit model_output_dir.toList).2
  let num_bins_train := min cfg.num_bins train_result.num_datapoints
  let num_bins_val := min cfg.num_bins val_result.num_datapoints
  [PlotCmd.clf,
    PlotCmd.prCurve train_result.pred_probs train_result.labels "TRAIN",
    PlotCmd.prCurve val_result.pred_probs val_result.labels "VAL",
    PlotCmd.savefig (model_output_dir ++ "/precision_recall.png"),
    PlotCmd.clf,
    PlotCmd.rocCurve train_result.pred_probs train_result.labels "TRAIN",
    PlotCmd.rocCurve val_result.pred_probs val_result.labels "VAL",
    PlotCmd.savefig (model_output_dir ++ "/roc.png"),
    PlotCmd.figure,
    PlotCmd.histogram (errorDiffs train_result 1) num_bins_train,
    PlotCmd.savefig (model_output_dir ++ "/" ++ model_name ++ "_pos_train_errors_histogram.png"),
    PlotCmd.figure,
    PlotCmd.histogram (errorDiffs train_result 0) num_bins_train,
    PlotCmd.savefig (model_output_dir ++ "/" ++ model_name ++ "_neg_train_errors_histogram.png"),
    PlotCmd.figure,
    PlotCmd.histogram (errorDiffs val_result 1) num_bins_val,
    PlotCmd.savefig (model_output_dir ++ "/" ++ model_name ++ "_pos_val_errors_histogram.png"),
    PlotCmd.figure,
    PlotCmd.histogram (errorDiffs val_result 0) num_bins_val,
    PlotCmd.savefig (model_output_dir ++ "/" ++ model_name ++ "_neg_val_errors_histogram.png")]

/-- The bin counts of the histogram commands in a trace, in order. -/
def histogramBinCounts (cmds : List PlotCmd) : List Nat :=
  cmds.filterMap (fun c => match c with | PlotCmd.histogram _ n => some n | _ => none)

/-! ### Concrete test fixtures -/

/-- A 1x1x1 test image. -/
def testImage : Image := [[[1]]]

/-- A small concrete dataset with two tensors. -/
def testDataset : Dataset where
  num_tensors := 2
  imageField := fun _ _ => [testImage, testImage]
  poseField := fun _ _ => [[0, 0, 1, 0, 2], [0, 0, 3, 0, 4]]
  metricField := fun _ i => if i = 0 then [1/4, 1/2] else [3/4]
  splitOf := fun _ => ([0, 1], [2])
  datapointImage := fun _ _ => testImage
  datapointPose := fun _ k => [0, 0, (k : ℚ), 0, 1]

/-- Concrete resolved parameters for witnesses. -/
def testParams : ResolvedParams :=
  ⟨"data", "image_wise", "tf_depth_ims", "grasps", "robustness", 1/2,
    GripperMode.SUCTION⟩

/-! ### Lemmas about the model-name loop -/

theorem ospathSplit_snd (p : List Char) :
    (ospathSplit p).2 = (p.reverse.takeWhile (fun c => c != sep)).reverse := rfl

theorem modelNameLoop_of_name_ne (fuel : Nat) (s : List Char × List Char) (h : s.2 ≠ []) :
    modelNameLoop fuel s = some s.2 := by
  cases fuel <;>
  · rw [modelNameLoop, if_neg]
    intro hg
    exact h hg.1

theorem modelNameLoop_succ (fuel : Nat) (root : List Char) (h : root ≠ []) :
    modelNameLoop (fuel + 1) (root, []) = modelNameLoop fuel (ospathSplit root) := by
  rw [modelNameLoop, if_pos ⟨rfl, h⟩]
  rfl

theorem dropWhile_sep_cons : ∀ (t : List Char), (∃ x ∈ t, (x == sep) = false) →
    ∃ c' t', t.dropWhile (fun c => c == sep) = c' :: t' ∧ (c' == sep) = false := by
  intro t
  induction t with
  | nil => rintro ⟨x, hx, -⟩; cases hx
  | cons a t ih =>
    rintro ⟨x, hx, hxs⟩
    by_cases ha : (a == sep) = true
    · have hxt : x ∈ t := by
        cases hx with
        | head => rw [ha] at hxs; cases hxs
        | tail _ hx => exact hx
      obtain ⟨c', t', hd, hc'⟩ := ih ⟨x, hxt, hxs⟩
      exact ⟨c', t', by simp [List.dropWhile_cons, ha, hd], hc'⟩
    · exact ⟨a, t, by simp [List.dropWhile_cons, ha], by simpa using ha⟩

theorem loop_from_nonsep_head (fuel : Nat) (c : Char) (t : List Char)
    (hc : (c == sep) = false) :
    modelNameLoop (fuel + 1) ((c :: t).reverse, []) =
      some ((c :: t).takeWhile (fun x => x != sep)).reverse := by
  have hne : (c :: t).reverse ≠ [] := by simp
  rw [modelNameLoop_succ fuel _ hne]
  have h2 : (ospathSplit (c :: t).reverse).2 =
      ((c :: t).takeWhile (fun x => x != sep)).reverse := by
    rw [ospathSplit_snd, List.reverse_reverse]
  have hcne : c ≠ sep := by simpa using hc
  have h3 : (ospathSplit (c :: t).reverse).2 ≠ [] := by
    rw [h2]
    simp [List.takeWhile_cons, hc, hcne]
  rw [modelNameLoop_of_name_ne fuel _ h3, h2]

theorem ospathSplit_sep_head (c : Char) (t : List Char) (hc : (c == sep) = true)
    (hex : ∃ x ∈ t, (x == sep) = false) :
    ospathSplit ((c :: t).reverse) = (((c :: t).dropWhile (fun x => x == sep)).reverse, []) := by
  obtain ⟨x, hx, hxs⟩ := hex
  unfold ospathSplit
  simp only [List.reverse_reverse]
  rw [List.takeWhile_cons, List.dropWhile_cons]
  simp only [hc, bne, Bool.not_true, if_neg, Bool.false_eq_true, not_false_eq_true,
    List.reverse_reverse]
  rw [if_pos]
  · simp
  · constructor
    · simp
    · rw [List.all_reverse]
      simp only [List.all_eq_true, not_forall]
      exact ⟨x, List.mem_cons_of_mem c hx, by simp [hxs]⟩

theorem modelNameLoop_correct_rev (r : List Char) (h : ∃ x ∈ r, (x == sep) = false) :
    modelNameLoop (r.length + 1) (r.reverse, []) = some (lastNonemptyComponent r.reverse) ∧
      lastNonemptyComponent r.reverse ≠ [] := by
  have hlast : lastNonemptyComponent r.reverse
      = ((r.dropWhile (fun c => c == sep)).takeWhile (fun c => c != sep)).reverse := by
    rw [lastNonemptyComponent, List.reverse_reverse]
  rcases r with _ | ⟨c, t⟩
  · obtain ⟨x, hx, -⟩ := h
    cases hx
  · by_cases hc : (c == sep) = true
    · -- the path ends with a separator: two iterations are needed
      have hex : ∃ x ∈ t, (x == sep) = false := by
        obtain ⟨x, hx, hxs⟩ := h
        cases hx with
        | head => rw [hc] at hxs; cases hxs
        | tail _ hx => exact ⟨x, hx, hxs⟩
      obtain ⟨c', t', hd, hc'⟩ := dropWhile_sep_cons t hex
      have hd2 : (c :: t).dropWhile (fun x => x == sep) = c' :: t' := by
        rw [List.dropWhile_cons, if_pos hc, hd]
      have hstep : modelNameLoop ((c :: t).length + 1) ((c :: t).reverse, []) =
          modelNameLoop (t.length + 1) ((c' :: t').reverse, []) := by
        have : (c :: t).length + 1 = (t.length + 1) + 1 := by simp
        rw [this, modelNameLoop_succ (t.length + 1) _ (by simp),
          ospathSplit_sep_head c t hc hex, hd2]
      have hc'ne : c' ≠ sep := by simpa using hc'
      rw [hstep, loop_from_nonsep_head t.length c' t' hc', hlast, hd2]
      constructor
      · rfl
      · simp [List.takeWhile_cons, hc', hc'ne]
    · -- the path does not end with a separator: one iteration suffices
      have hcf : (c == sep) = false := by simpa using hc
      have hcne : c ≠ sep := by simpa using hcf
      have hdrop : (c :: t).dropWhile (fun x => x == sep) = c :: t := by
        rw [List.dropWhile_cons, if_neg (by simp [hcf])]
      constructor
      · have hl : (c :: t).length + 1 = (t.length + 1) + 1 := by simp
        rw [hl, loop_from_nonsep_head (t.length + 1) c t hcf, hlast, hdrop]
      · rw [hlast, hdrop]
        simp [List.takeWhile_cons, hcf, hcne]

/-! ### Helper lemmas for aggregation and rendering -/

theorem aggregateLabels_eq_binarize (dataset : Dataset) (metric_name : String)
    (metric_thresh : ℚ) :
    aggregateLabels dataset metric_name metric_thresh
      = binarizeMetrics (aggregateMetrics dataset metric_name) metric_thresh := by
  unfold aggregateLabels aggregateMetrics binarizeMetrics
  rw [List.map_flatten, List.map_map]
  rfl

theorem flatten_map_singleton {α β : Type} (g : α → β) (l : List α) :
    (l.map (fun x => [g x])).flatten = l.map g := by
  induction l with
  | nil => rfl
  | cons a l ih => simp [ih]

theorem enum_map_fst_apply {α β : Type} (f : Nat → β) (l : List α) :
    l.enum.map (fun ij => f ij.1) = (List.range l.length).map f := by
  have : (fun ij : Nat × α => f ij.1) = f ∘ Prod.fst := rfl
  rw [this, ← List.map_map, List.enum_map_fst]

/-! ### Claim theorems -/

/-- C1: the binarized label sequence produced by the aggregation loop assigns
label 1 to a datapoint iff its metric strictly exceeds the threshold; a
metric equal to the threshold yields label 0. -/
theorem binarized_labels_strict_threshold (dataset : Dataset) (metric_name : String)
    (metric_thresh : ℚ) (i : Nat) (m : ℚ)
    (hm : (aggregateMetrics dataset metric_name)[i]? = some m) :
    (aggregateLabels dataset metric_name metric_thresh)[i]?
        = some (if metric_thresh < m then 1 else 0) ∧
      ((aggregateLabels dataset metric_name metric_thresh)[i]? = some 1 ↔ metric_thresh < m) ∧
      (m = metric_thresh → (aggregateLabels dataset metric_name metric_thresh)[i]? = some 0) := by
  have hlab : (aggregateLabels dataset metric_name metric_thresh)[i]?
      = some (if metric_thresh < m then 1 else 0) := by
    rw [aggregateLabels_eq_binarize]
    unfold binarizeMetrics
    rw [List.getElem?_map, hm]
    rfl
  refine ⟨hlab, ?_, ?_⟩
  · rw [hlab]
    by_cases h : metric_thresh < m <;> simp [h]
  · rintro rfl
    rw [hlab, if_neg (lt_irrefl m)]

/-- C1 witness: in the test dataset the datapoint with metric 1/2 equal to
the threshold 1/2 receives label 0. -/
theorem binarized_labels_strict_threshold_witness :
    (aggregateMetrics testDataset "robustness")[1]? = some (1/2) ∧
      (aggregateLabels testDataset "robustness" (1/2))[1]? = some 0 := by
  have hm : (aggregateMetrics testDataset "robustness")[1]? = some (1/2) := by
    simp [aggregateMetrics, testDataset, List.range_succ]
  exact ⟨hm,
    (binarized_labels_strict_threshold testDataset "robustness" (1/2) 1 (1/2) hm).2.2 rfl⟩

/-- C2: with a caller-supplied dataset_config, every dataset parameter and
the gripper mode come from it, and neither the model's config.json fields
nor the loaded model's gripper mode influence the analysis; without one,
they come from the model configuration and the loaded model. -/
theorem dataset_config_overrides_model_config (cfg : ParsedConfig)
    (mc mc' : ModelConfigJson) (gq : GQCNNModel) (g' : String)
    (read_pose_data : List (List ℚ) → String → List (List ℚ))
    (datasets : String → Dataset) (shuffle : List Nat → List Nat)
    (model_output_dir : String) (d : DatasetConfig) (g : String) :
    runPredictionSingleModel cfg mc gq read_pose_data datasets shuffle
        model_output_dir (some d)
      = runPredictionSingleModel cfg mc' { gq with gripper_mode := g' } read_pose_data
          datasets shuffle model_output_dir (some d) ∧
    resolveParams mc g (some d)
      = ⟨d.dataset_dir, d.split_name, d.image_field_name, d.pose_field_name,
          d.target_metric_name, d.metric_thresh, d.gripper_mode⟩ ∧
    resolveParams mc g none
      = ⟨mc.dataset_dir, mc.split_name, mc.image_field_name, mc.pose_field_name,
          mc.target_metric_name, mc.metric_thresh, g⟩ :=
  ⟨rfl, rfl, rfl⟩

/-- C5: `_plot_grasp` decodes a parallel-jaw pose vector
`[x, y, depth, theta, width]` into a centered zero-angle grasp with
`depth = pose[2]` and annotated width `pose[-1]`, and a suction pose vector
`[x, y, depth]` into a centered grasp along the fixed axis `[1,0,0]` with
`depth = pose[2]` and no width. -/
theorem plot_grasp_pose_decoding (img : Image) (x y depth theta w x' y' d' : ℚ) :
    plotGrasp img [x, y, depth, theta, w] GripperMode.PARALLEL_JAW
      = [PlotCmd.imshow (channel0 img),
          PlotCmd.graspOverlay
            (GraspDepiction.grasp2D (imageCenter (channel0 img)) 0 depth 0) w] ∧
    plotGrasp img [x, y, depth, theta, w] GripperMode.LEGACY_PARALLEL_JAW
      = [PlotCmd.imshow (channel0 img),
          PlotCmd.graspOverlay
            (GraspDepiction.grasp2D (imageCenter (channel0 img)) 0 depth 0) w] ∧
    plotGrasp img [x', y', d'] GripperMode.SUCTION
      = [PlotCmd.imshow (channel0 img),
          PlotCmd.graspOverlay
            (GraspDepiction.suctionPoint2D (imageCenter (channel0 img)) [1, 0, 0] d') 0] :=
  ⟨rfl, rfl, rfl⟩

/-- C6: in `_plot`, both histograms of a split use bin count
`min(num_bins, num_datapoints of that split)`, recomputed per split. -/
theorem histogram_bin_counts (cfg : ParsedConfig) (model_output_dir : String)
    (train_result val_result : BinaryClassificationResult) :
    histogramBinCounts (plotCurves cfg model_output_dir train_result val_result)
      = [min cfg.num_bins train_result.num_datapoints,
          min cfg.num_bins train_result.num_datapoints,
          min cfg.num_bins val_result.num_datapoints,
          min cfg.num_bins val_result.num_datapoints] := rfl

/-- All five required keys present iff `_parse_config` succeeds. -/
theorem parseConfig_isSome_iff (cfg : List (String × Nat)) :
    (parseConfig cfg).isSome ↔ ∀ k ∈ requiredKeys, (lookupKey cfg k).isSome := by
  cases hA : lookupKey cfg "log_rate" <;> cases hB : lookupKey cfg "font_size" <;>
    cases hC : lookupKey cfg "dpi" <;> cases hD : lookupKey cfg "num_bins" <;>
    cases hE : lookupKey cfg "num_vis" <;>
    simp [parseConfig, requiredKeys, hA, hB, hC, hD, hE]

/-- C9: constructing the analyzer fails at config-parse time when any of the
five required keys is missing, and succeeds when all are present. -/
theorem parse_config_requires_all_keys (cfg : List (String × Nat)) :
    ((∃ k ∈ requiredKeys, lookupKey cfg k = none) → GQCNNAnalyzer.make cfg = none) ∧
      ((∀ k ∈ requiredKeys, (lookupKey cfg k).isSome) → (GQCNNAnalyzer.make cfg).isSome) := by
  constructor
  · rintro ⟨k, hk, hnone⟩
    cases hp : parseConfig cfg with
    | none => exact hp
    | some v =>
        exfalso
        have hall : ∀ k ∈ requiredKeys, (lookupKey cfg k).isSome :=
          (parseConfig_isSome_iff cfg).1 (by rw [hp]; rfl)
        have := hall k hk
        rw [hnone] at this
        cases this
  · intro h
    exact (parseConfig_isSome_iff cfg).2 h

/-- C9 witness: a config missing "dpi" makes the analyzer constructor fail. -/
theorem parse_config_requires_all_keys_witness :
    ("dpi" ∈ requiredKeys ∧
        lookupKey [("log_rate", 1), ("font_size", 2), ("num_bins", 3), ("num_vis", 4)]
          "dpi" = none) ∧
      GQCNNAnalyzer.make [("log_rate", 1), ("font_size", 2), ("num_bins", 3), ("num_vis", 4)]
        = none := by
  refine ⟨⟨by decide, by decide⟩, ?_⟩
  exact (parse_config_requires_all_keys
    [("log_rate", 1), ("font_size", 2), ("num_bins", 3), ("num_vis", 4)]).1
    ⟨"dpi", by decide, by decide⟩

/-- C10: for any gripper mode other than the two parallel-jaw constants,
including unrecognized values, `_plot_grasp` silently renders the suction
depiction (axis `[1,0,0]`, `depth = pose[2]`, width 0) without raising. -/
theorem plot_grasp_defaults_to_suction (img : Image) (pose : List ℚ) (gm : String)
    (h1 : gm ≠ GripperMode.PARALLEL_JAW) (h2 : gm ≠ GripperMode.LEGACY_PARALLEL_JAW) :
    plotGrasp img pose gm
      = [PlotCmd.imshow (channel0 img),
          PlotCmd.graspOverlay
            (GraspDepiction.suctionPoint2D (imageCenter (channel0 img)) [1, 0, 0]
              (pose.getD 2 0)) 0] := by
  have hcond : (gm == GripperMode.PARALLEL_JAW
      || gm == GripperMode.LEGACY_PARALLEL_JAW) = false := by
    simp [h1, h2]
  simp [plotGrasp, hcond]

/-- C10 witness: the unrecognized gripper mode "bogus" renders a suction
depiction. -/
theorem plot_grasp_defaults_to_suction_witness :
    ("bogus" ≠ GripperMode.PARALLEL_JAW ∧ "bogus" ≠ GripperMode.LEGACY_PARALLEL_JAW) ∧
      plotGrasp testImage [0, 0, 5] "bogus"
        = [PlotCmd.imshow (channel0 testImage),
            PlotCmd.graspOverlay
              (GraspDepiction.suctionPoint2D (imageCenter (channel0 testImage)) [1, 0, 0]
                (([0, 0, 5] : List ℚ).getD 2 0)) 0] :=
  ⟨⟨by decide, by decide⟩,
    plot_grasp_defaults_to_suction testImage [0, 0, 5] "bogus" (by decide) (by decide)⟩

theorem savefigPaths_flatten (L : List (List PlotCmd)) :
    savefigPaths L.flatten = (L.map savefigPaths).flatten := by
  induction L with
  | nil => rfl
  | cons a L ih =>
      simp only [List.flatten_cons, List.map_cons, savefigPaths, List.filterMap_append]
      rw [← savefigPaths, ← savefigPaths, ih]

theorem savefigPaths_exampleCmds (dataset : Dataset) (p : ResolvedParams)
    (result : BinaryClassificationResult) (splitIndices : List Nat)
    (exampleDir category : String) (i j : Nat) :
    savefigPaths (exampleCmds dataset p result splitIndices exampleDir category i j)
      = [exampleDir ++ "/" ++ category ++ "_" ++ pad3 i ++ ".png"] := by
  by_cases h : (p.gripper_mode == GripperMode.PARALLEL_JAW
      || p.gripper_mode == GripperMode.LEGACY_PARALLEL_JAW) = true <;>
    simp [exampleCmds, plotGrasp, savefigPaths, h]

theorem savefigPaths_exampleCmdsValFP (dataset : Dataset) (p : ResolvedParams)
    (result : BinaryClassificationResult) (splitIndices : List Nat)
    (exampleDir : String) (i j : Nat) :
    savefigPaths (exampleCmdsValFP dataset p result splitIndices exampleDir i j)
      = [exampleDir ++ "/false_positive_" ++ pad3 i ++ ".png"] := by
  simp [exampleCmdsValFP, savefigPaths]

/-- C3: each category/split rendering block saves exactly
`min(num_vis, |category index set|)` files (hence never more than `num_vis`),
named by category with a zero-padded sequence number under the split's
example directory. -/
theorem example_renderer_writes_min_files (shuffle : List Nat → List Nat)
    (num_vis : Nat) (dataset : Dataset) (p : ResolvedParams)
    (result : BinaryClassificationResult) (splitIndices catIndices : List Nat)
    (exampleDir category : String)
    (hlen : (shuffle catIndices).length = catIndices.length) :
    savefigPaths (renderCategory shuffle num_vis dataset p result splitIndices
          catIndices exampleDir category)
        = (List.range (min num_vis catIndices.length)).map
            (fun i => exampleDir ++ "/" ++ category ++ "_" ++ pad3 i ++ ".png") ∧
      (savefigPaths (renderCategory shuffle num_vis dataset p result splitIndices
          catIndices exampleDir category)).length = min num_vis catIndices.length ∧
      (savefigPaths (renderCategory shuffle num_vis dataset p result splitIndices
          catIndices exampleDir category)).length ≤ num_vis ∧
      savefigPaths (renderValFP shuffle num_vis dataset p result splitIndices
          catIndices exampleDir)
        = (List.range (min num_vis catIndices.length)).map
            (fun i => exampleDir ++ "/false_positive_" ++ pad3 i ++ ".png") := by
  have hcat : savefigPaths (renderCategory shuffle num_vis dataset p result splitIndices
      catIndices exampleDir category)
      = (List.range (min num_vis catIndices.length)).map
          (fun i => exampleDir ++ "/" ++ category ++ "_" ++ pad3 i ++ ".png") := by
    simp only [renderCategory]
    rw [savefigPaths_flatten, List.map_map]
    have hfn : (savefigPaths ∘ fun ij : Nat × Nat =>
        exampleCmds dataset p result splitIndices exampleDir category ij.1 ij.2)
        = fun ij : Nat × Nat =>
            [exampleDir ++ "/" ++ category ++ "_" ++ pad3 ij.1 ++ ".png"] := by
      funext ij
      exact savefigPaths_exampleCmds dataset p result splitIndices exampleDir category ij.1 ij.2
    rw [hfn, flatten_map_singleton (fun ij : Nat × Nat =>
        exampleDir ++ "/" ++ category ++ "_" ++ pad3 ij.1 ++ ".png")]
    refine (enum_map_fst_apply
      (fun i => exampleDir ++ "/" ++ category ++ "_" ++ pad3 i ++ ".png")
      ((shuffle catIndices).take num_vis)).trans ?_
    rw [List.length_take, hlen]
  have hvfp : savefigPaths (renderValFP shuffle num_vis dataset p result splitIndices
      catIndices exampleDir)
      = (List.range (min num_vis catIndices.length)).map
          (fun i => exampleDir ++ "/false_positive_" ++ pad3 i ++ ".png") := by
    simp only [renderValFP]
    rw [savefigPaths_flatten, List.map_map]
    have hfn : (savefigPaths ∘ fun ij : Nat × Nat =>
        exampleCmdsValFP dataset p result splitIndices exampleDir ij.1 ij.2)
        = fun ij : Nat × Nat => [exampleDir ++ "/false_positive_" ++ pad3 ij.1 ++ ".png"] := by
      funext ij
      exact savefigPaths_exampleCmdsValFP dataset p result splitIndices exampleDir ij.1 ij.2
    rw [hfn, flatten_map_singleton (fun ij : Nat × Nat =>
        exampleDir ++ "/false_positive_" ++ pad3 ij.1 ++ ".png")]
    refine (enum_map_fst_apply
      (fun i => exampleDir ++ "/false_positive_" ++ pad3 i ++ ".png")
      ((shuffle catIndices).take num_vis)).trans ?_
    rw [List.length_take, hlen]
  refine ⟨hcat, ?_, ?_, hvfp⟩
  · rw [hcat, List.length_map, List.length_range]
  · rw [hcat, List.length_map, List.length_range]
    exact Nat.min_le_left _ _

/-- C3 witness: with `num_vis = 3` and a two-element category index set, both
rendering forms save exactly two files with the expected names. -/
theorem example_renderer_writes_min_files_witness :
    (id ([5, 7] : List Nat)).length = ([5, 7] : List Nat).length ∧
      (savefigPaths (renderCategory id 3 testDataset testParams ⟨[], []⟩ [] [5, 7]
            "out" "true_positive")
          = (List.range (min 3 ([5, 7] : List Nat).length)).map
              (fun i => "out" ++ "/" ++ "true_positive" ++ "_" ++ pad3 i ++ ".png") ∧
        (savefigPaths (renderCategory id 3 testDataset testParams ⟨[], []⟩ [] [5, 7]
            "out" "true_positive")).length = min 3 ([5, 7] : List Nat).length ∧
        (savefigPaths (renderCategory id 3 testDataset testParams ⟨[], []⟩ [] [5, 7]
            "out" "true_positive")).length ≤ 3 ∧
        savefigPaths (renderValFP id 3 testDataset testParams ⟨[], []⟩ [] [5, 7] "out")
          = (List.range (min 3 ([5, 7] : List Nat).length)).map
              (fun i => "out" ++ "/false_positive_" ++ pad3 i ++ ".png")) :=
  ⟨rfl, example_renderer_writes_min_files id 3 testDataset testParams ⟨[], []⟩ [] [5, 7]
    "out" "true_positive" rfl⟩

/-- A one-datapoint result whose prediction 9/10 against true label 0 is a
false positive. -/
def fpResult : BinaryClassificationResult := ⟨[9/10], [0]⟩

/-- C4: evaluating the code at the failing input. The validation
false-positive block draws no grasp overlay for its rendered example (while
the block the other seven categories use draws exactly one), contradicting
the claim that all eight category/split combinations depict the grasp
overlay. -/
theorem val_false_positive_rendered_without_grasp_overlay :
    fpResult.false_positive_indices = [0] ∧
      graspOverlayCount (renderValFP id 1 testDataset testParams fpResult [2]
          fpResult.false_positive_indices "out/examples/val") = 0 ∧
      savefigPaths (renderValFP id 1 testDataset testParams fpResult [2]
          fpResult.false_positive_indices "out/examples/val")
        = ["out/examples/val/false_positive_000.png"] ∧
      graspOverlayCount (renderCategory id 1 testDataset testParams fpResult [2]
          fpResult.false_positive_indices "out/examples/val" "false_positive") = 1 := by
  have hpl : BinaryClassificationResult.predLabel ((9 : ℚ)/10) = 1 := by
    rw [BinaryClassificationResult.predLabel, if_pos (by norm_num)]
  have hfp : fpResult.false_positive_indices = [0] := by
    simp [fpResult, BinaryClassificationResult.false_positive_indices,
      BinaryClassificationResult.outcomeIndices, BinaryClassificationResult.num_datapoints,
      List.range_succ, hpl]
  refine ⟨hfp, ?_, ?_, ?_⟩ <;> rw [hfp] <;> rfl

/-- C7 counterexample: for `model_dir = "/"` the loop body maps the state to
itself while the loop guard still holds (`os.path.split('/') == ('/', '')`),
so the model-name loop never terminates; in particular it is still running
after 100 iterations. -/
theorem model_name_loop_diverges_on_separator_only_path :
    modelNameStep ([sep], []) = ([sep], []) ∧ modelNameGuard ([sep], []) ∧
      deriveModelName 100 [sep] = none := by
  refine ⟨by decide, ⟨rfl, by decide⟩, by decide⟩

/-- C7 (amended): for every `model_dir` containing at least one
non-separator character, the loop terminates within `length + 1` iterations
and yields the (non-empty) last non-empty path component, and the
subdirectory `output_dir/model_name` exists after the creation step. -/
theorem model_name_loop_terminates_on_nonseparator_path
    (model_dir output_dir : List Char) (fs : List (List Char))
    (h : ∃ c ∈ model_dir, (c == sep) = false) :
    deriveModelName (model_dir.length + 1) model_dir
        = some (lastNonemptyComponent model_dir) ∧
      lastNonemptyComponent model_dir ≠ [] ∧
      pathJoin output_dir (lastNonemptyComponent model_dir) ∈
        ensureDir fs (pathJoin output_dir (lastNonemptyComponent model_dir)) := by
  have h' : ∃ x ∈ model_dir.reverse, (x == sep) = false := by
    obtain ⟨c, hc, hcs⟩ := h
    exact ⟨c, List.mem_reverse.2 hc, hcs⟩
  have hmain := modelNameLoop_correct_rev model_dir.reverse h'
  rw [List.reverse_reverse, List.length_reverse] at hmain
  refine ⟨hmain.1, hmain.2, ?_⟩
  unfold ensureDir
  by_cases hmem : pathJoin output_dir (lastNonemptyComponent model_dir) ∈ fs
  · rw [if_pos hmem]
    exact hmem
  · rw [if_neg hmem]
    simp

/-- C7 witness: for `model_dir = "m/gq"` the loop yields "gq" and the output
subdirectory exists afterwards. -/
theorem model_name_loop_terminates_on_nonseparator_path_witness :
    (∃ c ∈ ['m', sep, 'g', 'q'], (c == sep) = false) ∧
      (deriveModelName (['m', sep, 'g', 'q'].length + 1) ['m', sep, 'g', 'q']
          = some (lastNonemptyComponent ['m', sep, 'g', 'q']) ∧
        lastNonemptyComponent ['m', sep, 'g', 'q'] ≠ [] ∧
        pathJoin ['o'] (lastNonemptyComponent ['m', sep, 'g', 'q']) ∈
          ensureDir [] (pathJoin ['o'] (lastNonemptyComponent ['m', sep, 'g', 'q']))) :=
  ⟨by decide, model_name_loop_terminates_on_nonseparator_path
    ['m', sep, 'g', 'q'] ['o'] [] (by decide)⟩

theorem saveResultEvents_plots (cmds : List PlotCmd) :
    saveResultEvents (cmds.map Effect.plot) = [] := by
  induction cmds with
  | nil => rfl
  | cons a l ih =>
      simp only [List.map_cons, saveResultEvents, List.filterMap_cons] at ih ⊢
      exact ih

theorem saveResultEvents_append (a b : List Effect) :
    saveResultEvents (a ++ b) = saveResultEvents a ++ saveResultEvents b :=
  List.filterMap_append ..

/-- C8: each classification result is constructed exactly once from the
sliced prediction/label sequences, persisted exactly once to its `.cres`
file, and the values returned after the example-rendering and stats phases
are exactly the values that were saved: no later step replaces or alters
them. -/
theorem classification_results_created_once_saved_unmutated (cfg : ParsedConfig)
    (mc : ModelConfigJson) (gq : GQCNNModel)
    (read_pose_data : List (List ℚ) → String → List (List ℚ))
    (datasets : String → Dataset) (shuffle : List Nat → List Nat)
    (model_output_dir : String) (dc : Option DatasetConfig) :
    let p := resolveParams mc gq.gripper_mode dc
    let dataset := datasets p.dataset_dir
    let split := dataset.splitOf p.split_name
    let preds := aggregatePredictions gq read_pose_data dataset p
    let labels := aggregateLabels dataset p.metric_name p.metric_thresh
    let out := runPredictionSingleModel cfg mc gq read_pose_data datasets shuffle
      model_output_dir dc
    out.1 = ⟨fancyIndex preds 0 split.1, fancyIndex labels 0 split.1⟩ ∧
      out.2.1 = ⟨fancyIndex preds 0 split.2, fancyIndex labels 0 split.2⟩ ∧
      saveResultEvents out.2.2
        = [(model_output_dir ++ "/train_result.cres", out.1),
            (model_output_dir ++ "/val_result.cres", out.2.1)] := by
  dsimp only
  refine ⟨rfl, rfl, ?_⟩
  simp only [runPredictionSingleModel]
  simp [saveResultEvents_append, saveResultEvents_plots, saveResultEvents,
    List.filterMap_cons]

end GQCNNAnalysis
